import Mathlib

/-!
# Verification of the incrementality-test power-analysis script (`app.py`)

A shallow embedding of the statistical core of `app.py`: group assignment
(lines 30–34), trailing-window filter (lines 41–43), power analysis
(lines 46–52), significance test (lines 67–72), and the overall run
(lines 24–98).  Machine reals are modelled by exact rationals `ℚ`
(division by zero is `0` by the `ℚ` convention; the Python floats would
give `inf`/`nan` there).  External library calls whose internals are not
part of this repository — numpy's seeded Mersenne-Twister draw, scipy's
`ttest_ind`, statsmodels' `solve_power`, and the float square root inside
pandas' `.std()` — are modelled abstractly: either as explicit function
parameters of the embedding, or (for the seeded draw) by a concrete
deterministic pseudorandom selection without replacement.
-/

namespace IncApp

/-- One row of the revenue CSV: `date`, `geo_location`, `revenue`
(`parse_dates=["date"]`; dates are modelled as integers, one unit = one day). -/
structure Row where
  date : ℤ
  geo : String
  revenue : ℚ
  deriving DecidableEq, Repr

/-- `pandas` mean of a numeric column: sum divided by count
(`ℚ` convention: the empty mean is `0`; pandas would give `NaN`). -/
def mean (l : List ℚ) : ℚ := (l.sum) / l.length

/-- `pandas` sample variance (`ddof = 1`), the square of `.std()`:
`Σ (x - mean)² / (n - 1)`. -/
def sampleVar (l : List ℚ) : ℚ :=
  ((l.map (fun x => (x - mean l) ^ 2)).sum) / (l.length - 1)

/-- Result of the significance-test step (source lines 67–72):
`t_stat, p_val, obs_lift, percent_lift`, each `None` when the test is
skipped. -/
structure TestResult where
  t_stat : Option ℚ
  p_val : Option ℚ
  obs_lift : Option ℚ
  percent_lift : Option ℚ
  deriving DecidableEq, Repr

/-- Source lines 67–72.  `ttest` models scipy's `ttest_ind`, taking the two
samples and the `equal_var` flag and returning `(t_stat, p_val)`; the source
calls it with `equal_var=False`, i.e. Welch's unequal-variance test.
The guard is `len(test_group) >= 2 and len(control_group) >= 2`;
`obs_lift = test_group.mean() - control_group.mean()` and
`percent_lift = (obs_lift / control_group.mean()) * 100`. -/
def significanceTest (ttest : List ℚ → List ℚ → Bool → ℚ × ℚ)
    (test_group control_group : List ℚ) : TestResult :=
  if 2 ≤ test_group.length ∧ 2 ≤ control_group.length then
    let tp := ttest test_group control_group false
    let obs := mean test_group - mean control_group
    { t_stat := some tp.1
      p_val := some tp.2
      obs_lift := some obs
      percent_lift := some (obs / mean control_group * 100) }
  else
    { t_stat := none, p_val := none, obs_lift := none, percent_lift := none }

/-- One step of a linear congruential generator (glibc constants), used to
model numpy's pseudorandom stream.  The actual Mersenne-Twister internals
are external library code, not part of this repository. -/
def lcg (s : ℕ) : ℕ := (s * 1103515245 + 12345) % 2147483648

/-- Modelled from the spec: `np.random.choice(pool, size=k, replace=False)`
— a seeded pseudorandom draw of `k` distinct elements without replacement.
numpy's PRNG internals are not part of this repository; the draw is modelled
as repeatedly picking a pseudorandom index into the remaining pool and
removing the picked element, which is deterministic in the seed `s` and
draws without replacement. -/
def draw {α : Type} : ℕ → ℕ → List α → List α
  | _, 0, _ => []
  | _, _ + 1, [] => []
  | s, k + 1, a :: l =>
    (a :: l).get ⟨s % (a :: l).length, Nat.mod_lt _ (Nat.succ_pos _)⟩ ::
      draw (lcg s) k ((a :: l).eraseIdx (s % (a :: l).length))

/-- The global numpy PRNG state (`np.random`). -/
structure NpRandom where
  state : ℕ
  deriving DecidableEq, Repr

/-- `np.random.seed(s)` (source line 30): resets the global PRNG state to
the seed, discarding whatever state it held before. -/
def npSeed (_r : NpRandom) (s : ℕ) : NpRandom := NpRandom.mk s

/-- `np.random.choice(pool, size=k, replace=False)` run against a PRNG
state. -/
def npChoice {α : Type} (r : NpRandom) (pool : List α) (k : ℕ) : List α :=
  draw r.state k pool

/-- `pandas.Series.unique()`: the distinct values in order of first
appearance (source line 31). -/
def dedupFirstAux {α : Type} [DecidableEq α] : List α → List α → List α
  | [], acc => acc.reverse
  | x :: xs, acc =>
    if x ∈ acc then dedupFirstAux xs acc else dedupFirstAux xs (x :: acc)

/-- The distinct values of a list in order of first appearance. -/
def dedupFirst {α : Type} [DecidableEq α] (l : List α) : List α :=
  dedupFirstAux l []

/-- Source lines 30–33: `np.random.seed(42)`;
`holdout_count = int(len(cities) * (holdout_pct / 100))` (under exact
arithmetic, `⌊N · pct / 100⌋`, i.e. natural division);
`control_cities = np.random.choice(cities, size=holdout_count,
replace=False)`.  `rng` is the incoming global PRNG state, which line 30
re-seeds to 42. -/
def assignor (rng : NpRandom) (cities : List String) (holdout_pct : ℕ) :
    List String :=
  let r := npSeed rng 42
  let holdout_count := cities.length * holdout_pct / 100
  npChoice r cities holdout_count

/-- Source line 34: `"control" if x in control_cities else "test"`. -/
def groupOf (control_cities : List String) (x : String) : String :=
  if x ∈ control_cities then "control" else "test"

/-- `revenue_df["date"].max()` (source line 42); `0` on an empty frame,
where pandas would give `NaN`. -/
def maxDate (df : List Row) : ℤ :=
  ((df.map Row.date).maximum).getD 0

/-- The earliest date in the frame (`0` on an empty frame); the data span
is `maxDate df - minDate df`. -/
def minDate (df : List Row) : ℤ :=
  ((df.map Row.date).minimum).getD 0

/-- Source lines 41–43: `test_start = revenue_df["date"].max() -
pd.Timedelta(days=days)`; `test_df = revenue_df[revenue_df["date"] >
test_start]`. -/
def windowFilter (df : List Row) (days : ℤ) : List Row :=
  let test_start := maxDate df - days
  df.filter fun r => decide (test_start < r.date)

/-- Round a rational to the nearest integer, half to even, modelling
Python's `round` under exact arithmetic. -/
def roundHalfEven (s : ℚ) : ℤ :=
  if s - ⌊s⌋ < 1 / 2 then ⌊s⌋
  else if 1 / 2 < s - ⌊s⌋ then ⌊s⌋ + 1
  else if ⌊s⌋ % 2 = 0 then ⌊s⌋ else ⌊s⌋ + 1

/-- Python's `round(q, d)` under exact arithmetic. -/
def pyRound (q : ℚ) (d : ℕ) : ℚ :=
  (roundHalfEven (q * 10 ^ d) : ℚ) / 10 ^ d

/-- The sidebar configuration parameters (source lines 17–22). -/
structure Config where
  weekly_budget : ℚ
  budget_increase_pct : ℚ
  test_weeks : ℕ
  holdout_pct : ℕ
  alpha : ℚ
  power : ℚ
  deriving DecidableEq, Repr

/-- The summary table of source lines 79–91, with each entry's rounding as
in the source (`Option` fields are the `"N/A"` entries). -/
structure Summary where
  required_sample_size : ℤ
  actual_test_size : ℕ
  actual_control_size : ℕ
  baseline : ℚ
  expected_lift : ℚ
  effect_size : ℚ
  observed_lift : Option ℚ
  observed_pct_lift : Option ℚ
  p_value : Option ℚ
  total_budget : ℚ
  holdout_size_pct : ℚ
  deriving DecidableEq, Repr

/-- Everything the script renders: the control-city list (sidebar), the two
soft warnings, the summary table, and the per-(date, group) mean revenue
chart data. -/
structure Output where
  control_cities : List String
  warnings : List String
  summary : Summary
  chart : List ((ℤ × String) × ℚ)
  deriving DecidableEq, Repr

/-- Source line 97: `test_df.groupby(["date", "group"])["revenue"].mean()`
— the mean revenue per (date, group) key. -/
def groupMeans (df : List Row) (control_cities : List String) :
    List ((ℤ × String) × ℚ) :=
  let keys := dedupFirst (df.map fun r => (r.date, groupOf control_cities r.geo))
  keys.map fun k =>
    (k, mean ((df.filter fun r =>
      decide ((r.date, groupOf control_cities r.geo) = k)).map Row.revenue))

/-- The whole script run (source lines 24–98), shallowly embedded.
External library calls are parameters: `sqrtf` models the float square
root inside pandas' `.std()` (so `std_dev = sqrtf(sample variance)`),
`solve` models `TTestIndPower().solve_power(effect_size, alpha, power)`,
and `ttest` models `scipy.stats.ttest_ind`.  `rng` is the global numpy PRNG
state, re-seeded to 42 by line 30.  The two `Option (List Row)` inputs are
the uploaded files; when either is missing the script renders nothing
(`none`).  There is no other failure channel: the body computes
unconditionally (in `ℚ`, division by zero yields `0`; the Python floats
would carry `inf`/`NaN` instead). -/
def runApp (sqrtf : ℚ → ℚ) (solve : ℚ → ℚ → ℚ → ℚ)
    (ttest : List ℚ → List ℚ → Bool → ℚ × ℚ) (rng : NpRandom)
    (revenue_file orders_file : Option (List Row)) (cfg : Config) :
    Option Output :=
  match revenue_file, orders_file with
  | some revenue_df, some _orders_df =>
    let cities := dedupFirst (revenue_df.map Row.geo)
    let holdout_count := cities.length * cfg.holdout_pct / 100
    let control_cities := assignor rng cities cfg.holdout_pct
    let days : ℤ := (cfg.test_weeks : ℤ) * 7
    let test_df := windowFilter revenue_df days
    let baseline := mean (test_df.map Row.revenue)
    let std_dev := sqrtf (sampleVar (test_df.map Row.revenue))
    let lift_amt := cfg.budget_increase_pct / 100 * baseline
    let effect_size := lift_amt / std_dev
    let sample_needed : ℤ := ⌈solve effect_size cfg.alpha cfg.power⌉
    let test_group := (test_df.filter fun r =>
      decide (groupOf control_cities r.geo = "test")).map Row.revenue
    let control_group := (test_df.filter fun r =>
      decide (groupOf control_cities r.geo = "control")).map Row.revenue
    let warnings :=
      (if control_group.length < 5 then
        ["Control group is too small for valid statistical analysis."]
      else []) ++
      (if (test_group.length : ℤ) < sample_needed ∨
          (control_group.length : ℤ) < sample_needed then
        ["Your sample sizes are smaller than required for the selected power/significance level."]
      else [])
    let tr := significanceTest ttest test_group control_group
    let total_budget :=
      cfg.weekly_budget * (1 + cfg.budget_increase_pct / 100) * (cfg.test_weeks : ℚ)
    some
      { control_cities := control_cities
        warnings := warnings
        summary :=
          { required_sample_size := sample_needed
            actual_test_size := test_group.length
            actual_control_size := control_group.length
            baseline := pyRound baseline 2
            expected_lift := pyRound lift_amt 2
            effect_size := pyRound effect_size 3
            observed_lift := tr.obs_lift.map (pyRound · 2)
            observed_pct_lift := tr.percent_lift.map (pyRound · 2)
            p_value := tr.p_val.map (pyRound · 4)
            total_budget := pyRound total_budget 2
            holdout_size_pct := pyRound ((holdout_count : ℚ) / (cities.length : ℚ) * 100) 1 }
        chart := groupMeans test_df control_cities }
  | _, _ => none

/-- Modelled from the spec: `TTestIndPower().solve_power(effect_size,
alpha, power)` — statsmodels' power solver, whose internals are external to
this repository.  `P n α` is the power the two-sample t-test attains with
`n` samples per group at significance level `α`, for the fixed effect size
under consideration; the solver returns the least integral sample size
attaining the desired power (the ceiling of the continuous solve). -/
def solvePower (P : ℕ → ℚ → ℚ) (α target : ℚ) (h : ∃ n, target ≤ P n α) : ℕ :=
  Nat.find h

end IncApp

namespace IncApp

/-- In a duplicate-free list, the element at index `i` does not occur in the
list with index `i` erased. -/
theorem get_not_mem_eraseIdx {α : Type} :
    ∀ (l : List α) (i : ℕ) (h : i < l.length),
      l.Nodup → l.get ⟨i, h⟩ ∉ l.eraseIdx i
  | a :: t, 0, _, hnd => by
    simpa using (List.nodup_cons.mp hnd).1
  | a :: t, i + 1, h, hnd => by
    have h' : i < t.length := by simpa using h
    have hmem := List.get_mem t i h'
    have h1 := (List.nodup_cons.mp hnd).1
    have h2 := (List.nodup_cons.mp hnd).2
    simp only [List.eraseIdx, List.mem_cons, List.get_cons_succ]
    push_neg
    exact ⟨fun he => h1 (he ▸ hmem), get_not_mem_eraseIdx t i h' h2⟩

/-- The seeded draw on an empty budget returns nothing. -/
theorem draw_zero {α : Type} (s : ℕ) (pool : List α) : draw s 0 pool = [] := by
  cases pool <;> rfl

/-- The seeded draw returns `min k |pool|` elements. -/
theorem draw_length {α : Type} :
    ∀ (k s : ℕ) (pool : List α), (draw s k pool).length = min k pool.length
  | 0, s, pool => by rw [draw_zero]; simp
  | k + 1, s, [] => by simp [draw]
  | k + 1, s, a :: l => by
    have hlt : s % (a :: l).length < (a :: l).length :=
      Nat.mod_lt _ (Nat.succ_pos _)
    have he := List.length_eraseIdx_add_one hlt
    have ih := draw_length k (lcg s) ((a :: l).eraseIdx (s % (a :: l).length))
    simp only [draw, List.length_cons]
    simp only [List.length_cons] at ih he
    rw [ih]
    simp only [Nat.min_def] at he ⊢
    split_ifs <;> omega

/-- Every drawn element comes from the pool. -/
theorem draw_subset {α : Type} :
    ∀ (k s : ℕ) (pool : List α) (x : α), x ∈ draw s k pool → x ∈ pool
  | 0, s, pool, x => by rw [draw_zero]; simp
  | k + 1, s, [], x => by simp [draw]
  | k + 1, s, a :: l, x => by
    intro hx
    simp only [draw, List.mem_cons] at hx
    rcases hx with h | h
    · exact h ▸ List.get_mem _ _ _
    · exact (List.eraseIdx_sublist (a :: l) _).subset
        (draw_subset k (lcg s) _ x h)

/-- The draw is without replacement: from a duplicate-free pool the drawn
elements are pairwise distinct. -/
theorem draw_nodup {α : Type} :
    ∀ (k s : ℕ) (pool : List α), pool.Nodup → (draw s k pool).Nodup
  | 0, s, pool, _ => by rw [draw_zero]; simp
  | k + 1, s, [], _ => by simp [draw]
  | k + 1, s, a :: l, hnd => by
    simp only [draw, List.nodup_cons]
    refine ⟨fun hmem => ?_,
      draw_nodup k (lcg s) _ (List.Nodup.sublist (List.eraseIdx_sublist _ _) hnd)⟩
    exact get_not_mem_eraseIdx (a :: l) _ _ hnd
      (draw_subset k (lcg s) _ _ hmem)

/-- Every row's date is at most `maxDate`. -/
theorem le_maxDate_of_mem {df : List Row} {r : Row} (hr : r ∈ df) :
    r.date ≤ maxDate df := by
  have hmem : r.date ∈ df.map Row.date := List.mem_map_of_mem _ hr
  unfold maxDate
  cases h : (df.map Row.date).maximum with
  | bot => exact absurd (List.maximum_eq_bot.mp h ▸ hmem) (List.not_mem_nil _)
  | coe m => simpa [h] using List.le_maximum_of_mem hmem h

/-- Every row's date is at least `minDate`. -/
theorem minDate_le_of_mem {df : List Row} {r : Row} (hr : r ∈ df) :
    minDate df ≤ r.date := by
  have hmem : r.date ∈ df.map Row.date := List.mem_map_of_mem _ hr
  unfold minDate
  cases h : (df.map Row.date).minimum with
  | top =>
    exact absurd (List.minimum_eq_top.mp h ▸ hmem) (List.not_mem_nil _)
  | coe m => simpa [h] using List.minimum_le_of_mem hmem h

/-- C1: if either group has fewer than 2 observations, the significance test
is skipped and the t-statistic, p-value, absolute lift and percent lift are
all reported as unavailable (`None`), never computed — for any underlying
t-test implementation. -/
theorem small_group_skips_test (ttest : List ℚ → List ℚ → Bool → ℚ × ℚ)
    (test_group control_group : List ℚ)
    (h : test_group.length < 2 ∨ control_group.length < 2) :
    significanceTest ttest test_group control_group =
      { t_stat := none, p_val := none, obs_lift := none, percent_lift := none } := by
  unfold significanceTest
  rw [if_neg]
  omega

/-- Witness for `small_group_skips_test` at test group `[1]`,
control group `[1, 2]`. -/
theorem small_group_skips_test_witness :
    (([(1 : ℚ)] : List ℚ).length < 2 ∨ ([(1 : ℚ), 2] : List ℚ).length < 2) ∧
      significanceTest (fun _ _ _ => (0, 0)) [(1 : ℚ)] [(1 : ℚ), 2] =
        { t_stat := none, p_val := none, obs_lift := none, percent_lift := none } :=
  ⟨by decide, small_group_skips_test _ _ _ (by decide)⟩

/-- C7: with at least 2 observations in each group the tester runs the
t-test with `equal_var = false` (Welch's unequal-variance test) and computes
absolute lift `mean(test) − mean(control)` and percent lift
`(mean(test) − mean(control)) / mean(control) × 100` (the `ℚ` convention
makes the percent lift `0` when the control mean is `0`, where the claim
calls it undefined). -/
theorem welch_test_and_lift (ttest : List ℚ → List ℚ → Bool → ℚ × ℚ)
    (test_group control_group : List ℚ)
    (ht : 2 ≤ test_group.length) (hc : 2 ≤ control_group.length) :
    significanceTest ttest test_group control_group =
      { t_stat := some (ttest test_group control_group false).1
        p_val := some (ttest test_group control_group false).2
        obs_lift := some (mean test_group - mean control_group)
        percent_lift := some ((mean test_group - mean control_group) /
          mean control_group * 100) } := by
  unfold significanceTest
  rw [if_pos ⟨ht, hc⟩]

/-- Witness for `welch_test_and_lift` at the spec's example
`test_group = [10, 12, 11]`, `control_group = [8, 9]`. -/
theorem welch_test_and_lift_witness :
    2 ≤ ([(10 : ℚ), 12, 11] : List ℚ).length ∧
      2 ≤ ([(8 : ℚ), 9] : List ℚ).length ∧
      significanceTest (fun _ _ _ => (0, 0)) [(10 : ℚ), 12, 11] [(8 : ℚ), 9] =
        { t_stat := some 0
          p_val := some 0
          obs_lift := some (mean [(10 : ℚ), 12, 11] - mean [(8 : ℚ), 9])
          percent_lift := some ((mean [(10 : ℚ), 12, 11] - mean [(8 : ℚ), 9]) /
            mean [(8 : ℚ), 9] * 100) } :=
  ⟨by decide, by decide,
    welch_test_and_lift (fun _ _ _ => (0, 0)) _ _ (by decide) (by decide)⟩

/-- C3: for a non-empty duplicate-free list of `N` unit identifiers and a
holdout percentage `pct ≤ 100`, the assignor draws exactly
`⌊N · pct / 100⌋` distinct holdout units, so the control set's size is
`⌊N · (pct/100)⌋`; when that floor is `0` the control set is empty. -/
theorem assignor_holdout_size (rng : NpRandom) (cities : List String)
    (pct : ℕ) (_hne : cities ≠ []) (hnd : cities.Nodup) (hpct : pct ≤ 100) :
    (assignor rng cities pct).length = cities.length * pct / 100 ∧
      (assignor rng cities pct).length = ⌊(cities.length * pct : ℚ) / 100⌋₊ ∧
      (assignor rng cities pct).Nodup ∧
      (cities.length * pct / 100 = 0 → assignor rng cities pct = []) := by
  have hk : cities.length * pct / 100 ≤ cities.length := by
    calc cities.length * pct / 100 ≤ cities.length * 100 / 100 :=
          Nat.div_le_div_right (Nat.mul_le_mul_left _ hpct)
      _ = cities.length := Nat.mul_div_cancel _ (by norm_num)
  have hlen : (assignor rng cities pct).length = cities.length * pct / 100 := by
    show (draw 42 (cities.length * pct / 100) cities).length = _
    rw [draw_length]
    omega
  refine ⟨hlen, ?_, draw_nodup _ _ _ hnd, fun h0 => ?_⟩
  · rw [hlen,
      show ((cities.length * pct : ℚ)) = ((cities.length * pct : ℕ) : ℚ) by push_cast; ring,
      show (100 : ℚ) = ((100 : ℕ) : ℚ) by norm_num,
      Nat.floor_div_nat, Nat.floor_natCast]
  · show draw 42 (cities.length * pct / 100) cities = []
    rw [h0, draw_zero]

/-- Witness for `assignor_holdout_size` at the spec's example:
five units, 20% holdout, one control unit. -/
theorem assignor_holdout_size_witness :
    (["A", "B", "C", "D", "E"] : List String) ≠ [] ∧
      (["A", "B", "C", "D", "E"] : List String).Nodup ∧ 20 ≤ 100 ∧
      ((assignor ⟨0⟩ ["A", "B", "C", "D", "E"] 20).length =
          (["A", "B", "C", "D", "E"] : List String).length * 20 / 100 ∧
        (assignor ⟨0⟩ ["A", "B", "C", "D", "E"] 20).length =
          ⌊((["A", "B", "C", "D", "E"] : List String).length * 20 : ℚ) / 100⌋₊ ∧
        (assignor ⟨0⟩ ["A", "B", "C", "D", "E"] 20).Nodup ∧
        ((["A", "B", "C", "D", "E"] : List String).length * 20 / 100 = 0 →
          assignor ⟨0⟩ ["A", "B", "C", "D", "E"] 20 = [])) :=
  ⟨by decide, by decide, by decide,
    assignor_holdout_size ⟨0⟩ ["A", "B", "C", "D", "E"] 20
      (by decide) (by decide) (by decide)⟩

/-- C4: the assignor yields a total partition: every unit is labelled
exactly one of `"control"`/`"test"`, the control- and test-labelled subsets
of the unit list have lengths summing to the total, and no unit lies in
both subsets. -/
theorem assignor_total_partition (rng : NpRandom) (cities : List String)
    (pct : ℕ) :
    (∀ g, groupOf (assignor rng cities pct) g = "control" ∨
        groupOf (assignor rng cities pct) g = "test") ∧
      (∀ g, ¬(groupOf (assignor rng cities pct) g = "control" ∧
        groupOf (assignor rng cities pct) g = "test")) ∧
      ((cities.filter fun g => decide (groupOf (assignor rng cities pct) g = "control")).length +
          (cities.filter fun g => decide (groupOf (assignor rng cities pct) g = "test")).length =
        cities.length) ∧
      ∀ g, ¬(g ∈ cities.filter (fun g => decide (groupOf (assignor rng cities pct) g = "control")) ∧
        g ∈ cities.filter (fun g => decide (groupOf (assignor rng cities pct) g = "test"))) := by
  set C := assignor rng cities pct with hC
  have hone : ∀ g, groupOf C g = "control" ∨ groupOf C g = "test" := by
    intro g
    unfold groupOf
    by_cases hg : g ∈ C <;> simp [hg]
  have hexcl : ∀ g, ¬(groupOf C g = "control" ∧ groupOf C g = "test") := by
    intro g ⟨h1, h2⟩
    rw [h1] at h2
    exact absurd h2 (by decide)
  refine ⟨hone, hexcl, ?_, ?_⟩
  · have hsplit := List.length_eq_length_filter_add (l := cities)
      (fun g => decide (groupOf C g = "control"))
    have hfc : List.filter (fun g => decide (groupOf C g = "test")) cities =
        List.filter (fun x => !(decide (groupOf C x = "control"))) cities :=
      List.filter_congr fun g _ => by rcases hone g with h | h <;> rw [h] <;> decide
    rw [hfc]
    exact hsplit.symm
  · intro g ⟨h1, h2⟩
    exact hexcl g ⟨of_decide_eq_true (List.mem_filter.mp h1).2,
      of_decide_eq_true (List.mem_filter.mp h2).2⟩

/-- C8: the holdout assignment is independent of the incoming global PRNG
state, because the assignor re-seeds with the fixed seed 42: two runs on the
same unit list and holdout percentage produce the identical control set. -/
theorem assignor_seed_deterministic (r1 r2 : NpRandom)
    (cities : List String) (pct : ℕ) :
    assignor r1 cities pct = assignor r2 cities pct := rfl

/-- C5: for a non-empty series the window filter retains exactly the rows
whose date is strictly greater than `maxDate − days`; in particular a row
dated exactly on the cutoff is excluded. -/
theorem window_filter_strict_cutoff (df : List Row) (days : ℤ) (r : Row)
    (_hne : df ≠ []) :
    (r ∈ windowFilter df days ↔ r ∈ df ∧ maxDate df - days < r.date) ∧
      (r.date = maxDate df - days → r ∉ windowFilter df days) := by
  have hmem : r ∈ windowFilter df days ↔
      r ∈ df ∧ maxDate df - days < r.date := by
    unfold windowFilter
    simp [List.mem_filter]
  refine ⟨hmem, fun hb hmem' => ?_⟩
  have := (hmem.mp hmem').2
  omega

/-- Witness for `window_filter_strict_cutoff` on a one-row series. -/
theorem window_filter_strict_cutoff_witness :
    ([({ date := 0, geo := "A", revenue := 1 } : Row)] : List Row) ≠ [] ∧
      ((({ date := 0, geo := "A", revenue := 1 } : Row) ∈
          windowFilter [{ date := 0, geo := "A", revenue := 1 }] 7 ↔
        ({ date := 0, geo := "A", revenue := 1 } : Row) ∈
            ([{ date := 0, geo := "A", revenue := 1 }] : List Row) ∧
          maxDate [{ date := 0, geo := "A", revenue := 1 }] - 7 <
            ({ date := 0, geo := "A", revenue := 1 } : Row).date) ∧
        (({ date := 0, geo := "A", revenue := 1 } : Row).date =
            maxDate [{ date := 0, geo := "A", revenue := 1 }] - 7 →
          ({ date := 0, geo := "A", revenue := 1 } : Row) ∉
            windowFilter [{ date := 0, geo := "A", revenue := 1 }] 7)) :=
  ⟨by decide,
    window_filter_strict_cutoff [{ date := 0, geo := "A", revenue := 1 }] 7
      { date := 0, geo := "A", revenue := 1 } (by decide)⟩

/-- Counterexample to C6: a two-day series (span 1 day) filtered with a
7-day window — the window exceeds the data span, yet the filter returns the
whole series, not the empty set the claim predicts. -/
theorem window_exceeds_span_counterexample :
    maxDate [({ date := 0, geo := "A", revenue := 1 } : Row),
        { date := 1, geo := "A", revenue := 2 }] -
      minDate [({ date := 0, geo := "A", revenue := 1 } : Row),
        { date := 1, geo := "A", revenue := 2 }] < 7 ∧
      windowFilter [({ date := 0, geo := "A", revenue := 1 } : Row),
        { date := 1, geo := "A", revenue := 2 }] 7 =
        [({ date := 0, geo := "A", revenue := 1 } : Row),
          { date := 1, geo := "A", revenue := 2 }] ∧
      windowFilter [({ date := 0, geo := "A", revenue := 1 } : Row),
        { date := 1, geo := "A", revenue := 2 }] 7 ≠ [] := by
  decide

/-- C6 amended: for a non-empty series whose date span is shorter than the
window length, the window filter silently returns the entire series (all
rows, never the empty set). -/
theorem window_exceeds_span_returns_all (df : List Row) (days : ℤ)
    (_hne : df ≠ []) (hspan : maxDate df - minDate df < days) :
    windowFilter df days = df := by
  unfold windowFilter
  rw [List.filter_eq_self]
  intro r hr
  have h1 := minDate_le_of_mem hr
  simp only [decide_eq_true_iff]
  omega

/-- Witness for `window_exceeds_span_returns_all` on a one-row series with
a 7-day window. -/
theorem window_exceeds_span_returns_all_witness :
    ([({ date := 0, geo := "A", revenue := 1 } : Row)] : List Row) ≠ [] ∧
      maxDate [({ date := 0, geo := "A", revenue := 1 } : Row)] -
        minDate [({ date := 0, geo := "A", revenue := 1 } : Row)] < 7 ∧
      windowFilter [({ date := 0, geo := "A", revenue := 1 } : Row)] 7 =
        [({ date := 0, geo := "A", revenue := 1 } : Row)] :=
  ⟨by decide, by decide,
    window_exceeds_span_returns_all [{ date := 0, geo := "A", revenue := 1 }] 7
      (by decide) (by decide)⟩

/-- C2 (code bug): on a windowed metric of constant revenue the sample
variance — hence the standard deviation — is `0`, yet the run still
produces the complete summary output with no error report of any kind:
the degenerate effect size is silently propagated into the sample-size
solve and the summary, contrary to the claim (in the `ℚ` embedding the
division by the zero standard deviation yields `0`; the Python floats
would carry `inf`/`NaN` into `solve_power` instead). -/
theorem zero_std_no_error_reported :
    sampleVar ((windowFilter [({ date := 0, geo := "A", revenue := 5 } : Row),
        { date := 1, geo := "B", revenue := 5 }] 7).map Row.revenue) = 0 ∧
      (runApp id (fun _ _ _ => 0) (fun _ _ _ => (0, 0)) ⟨0⟩
          (some [({ date := 0, geo := "A", revenue := 5 } : Row),
            { date := 1, geo := "B", revenue := 5 }])
          (some [])
          { weekly_budget := 500, budget_increase_pct := 20, test_weeks := 1,
            holdout_pct := 20, alpha := 1 / 10, power := 4 / 5 }).isSome = true := by
  refine ⟨?_, rfl⟩
  have hw : windowFilter [({ date := 0, geo := "A", revenue := 5 } : Row),
      { date := 1, geo := "B", revenue := 5 }] 7 =
      [({ date := 0, geo := "A", revenue := 5 } : Row),
        { date := 1, geo := "B", revenue := 5 }] := by
    decide
  rw [hw]
  show sampleVar [5, 5] = 0
  simp [sampleVar, mean]

/-- C9: the sample size returned by the power solver is non-decreasing in
the desired power and non-increasing in the significance level α, for any
attained-power function `P` that is monotone in α at each sample size
(raising α can only raise the attained power). -/
theorem solve_power_monotone (P : ℕ → ℚ → ℚ) (hP : ∀ n, Monotone (P n))
    (α α' target target' : ℚ) (hα : α ≤ α') (ht : target ≤ target')
    (h : ∃ n, target' ≤ P n α) :
    solvePower P α' target
        (h.imp fun n hn => le_trans ht (le_trans hn (hP n hα))) ≤
      solvePower P α target' h := by
  apply Nat.find_le
  exact le_trans ht (le_trans (Nat.find_spec h) (hP _ hα))

/-- Witness for `solve_power_monotone` with the attained-power function
`P n α = n`, lower significance level `0` vs `1` and desired power `0` vs
`1`. -/
theorem solve_power_monotone_witness :
    (∀ n : ℕ, Monotone fun _ : ℚ => (n : ℚ)) ∧ (0 : ℚ) ≤ 1 ∧
      solvePower (fun n _ => (n : ℚ)) 1 0 ⟨1, by norm_num⟩ ≤
        solvePower (fun n _ => (n : ℚ)) 0 1 ⟨1, by norm_num⟩ :=
  ⟨fun _ => monotone_const, by norm_num,
    solve_power_monotone (fun n _ => (n : ℚ)) (fun _ => monotone_const)
      0 1 0 1 (by norm_num) (by norm_num) ⟨1, by norm_num⟩⟩

/-- C10: the contents of the orders (secondary metric) file do not
influence any computed output — two runs differing only in the parsed
orders table render identical output; the file is only required to be
present (a missing orders file renders nothing). -/
theorem orders_noninterference (sqrtf : ℚ → ℚ) (solve : ℚ → ℚ → ℚ → ℚ)
    (ttest : List ℚ → List ℚ → Bool → ℚ × ℚ) (rng : NpRandom)
    (revenue_file : Option (List Row)) (orders1 orders2 : List Row)
    (cfg : Config) :
    runApp sqrtf solve ttest rng revenue_file (some orders1) cfg =
        runApp sqrtf solve ttest rng revenue_file (some orders2) cfg ∧
      runApp sqrtf solve ttest rng revenue_file none cfg = none := by
  cases revenue_file <;> exact ⟨rfl, rfl⟩

end IncApp
